import Mathlib

/-!
Shallow embedding of the `new_seasons_reminder` repository
(src/new_seasons_reminder: logic.py, providers/base.py, providers/generic.py,
providers/signal_cli.py, config.py, main.py).

Modelling conventions:
* Python `datetime` values are modelled as `Int` unix seconds; `datetime.now()`
  and `datetime.fromtimestamp` are monotone injective, so all comparisons are
  `Int` comparisons.  `timedelta(days=d)` is `86400 * d` seconds.
* A dictionary value that Python treats by truthiness is modelled with
  `Option`, where `none` covers both an absent key and a present falsy value.
* A value that must survive `int(...)`/`fromtimestamp` parsing is modelled by
  `AddedAt`: `valid t` when parsing succeeds with timestamp `t`, `invalid`
  when the parse raises `ValueError`/`TypeError` (caught by the source).
* The injected I/O callables (Tautulli fetchers, cover download) are plain
  function parameters, exactly as `logic.py` takes them.
* Logging calls are side effects with no data flow and are not modelled.
-/

/-- Result of reading and parsing a truthy `added_at` dictionary entry. -/
inductive AddedAt where
  | valid (t : Int)
  | invalid
deriving DecidableEq, Repr

/-- Show metadata as consumed by `is_new_show` (logic.py line 28):
only the `added_at` entry is read.  `none` models a missing or falsy entry. -/
structure ShowMetadata where
  added_at : Option AddedAt
deriving DecidableEq, Repr

/-- Child record as consumed by `is_season_finished` and the episode count:
`media_type`, and the nested `media_info.parts.file` path extracted by
`_safe_get_nested` with default `""` (logic.py line 56). -/
structure ChildItem where
  media_type : String
  file : String
deriving DecidableEq, Repr

/-- A raw record of the recently-added query, with the fields read by
`get_new_finished_seasons` (logic.py lines 83-92).  `Option` fields model
`dict.get` with falsy values folded into `none`. -/
structure RecentItem where
  media_type : String
  rating_key : Option String
  title : Option String
  parent_title : Option String
  grandparent_rating_key : Option String
  parent_index : Option Int
  added_at : Option AddedAt
deriving DecidableEq, Repr

/-- `datetime.isoformat()` is modelled as an injective rendering of the
timestamp; no claim inspects the concrete ISO text. -/
def datetime_isoformat (t : Int) : String := toString t

/-- Output record built at logic.py lines 131-141. -/
structure NewFinishedSeason where
  «show» : String
  season : Int
  season_title : String
  added_at : String
  episode_count : Nat
  rating_key : String
  cover_url : Option String
deriving DecidableEq, Repr

/-- logic.py lines 18-40, `is_new_show`. -/
def is_new_show (grandparent_rating_key : String) (cutoff_date : Int)
    (get_metadata_func : String → Option ShowMetadata) : Bool :=
  match get_metadata_func grandparent_rating_key with
  | none => false
  | some show_metadata =>
    match show_metadata.added_at with
    | none => false
    | some .invalid => false
    | some (.valid show_date) => decide (show_date ≥ cutoff_date)

/-- Python `str.endswith`.  (Lean's byte-indexed `String.endsWith` is
defined by well-founded recursion, which the kernel cannot evaluate, so the
character-list equivalent is used throughout.) -/
def pyEndsWith (s suffix : String) : Bool :=
  List.isSuffixOf suffix.data s.data

/-- The loop body count of logic.py lines 52-58: children that are episodes
with a non-empty file path not ending in `.strm`. -/
def availableEpisodes (episodes : List ChildItem) : Nat :=
  episodes.countP fun ep =>
    ep.media_type == "episode" && ep.file != "" && !(pyEndsWith ep.file ".strm")

/-- logic.py lines 43-61, `is_season_finished`. -/
def is_season_finished (season_rating_key : String)
    (get_children_func : String → List ChildItem) : Bool :=
  let episodes := get_children_func season_rating_key
  if episodes.isEmpty then false
  else decide (availableEpisodes episodes > 0)

/-- logic.py line 127: raw episode count with no file-path filtering. -/
def rawEpisodeCount (episodes : List ChildItem) : Nat :=
  (episodes.filter fun ep => ep.media_type == "episode").length

/-- Loop body of `get_new_finished_seasons` from the grandparent check on
(logic.py lines 110-141), reached once the item passed the media-type,
timestamp and recency gates with parsed timestamp `added_at`. -/
def processTail (cutoff_date : Int)
    (is_new_show_func : String → Int → Bool)
    (is_season_finished_func : String → Bool)
    (get_show_cover_func : String → Option String)
    (get_children_func : String → List ChildItem)
    (item : RecentItem) (added_at : Int) : Option NewFinishedSeason :=
  match item.grandparent_rating_key with
  | none => none
  | some grandparent_rating_key =>
    if is_new_show_func grandparent_rating_key cutoff_date then none
    else
      match item.rating_key with
      | none => none
      | some rating_key =>
        if !(is_season_finished_func rating_key) then none
        else
          let episodes := get_children_func rating_key
          let episode_count := rawEpisodeCount episodes
          let cover_url := get_show_cover_func grandparent_rating_key
          some { «show» := item.parent_title.getD "Unknown"
                 season := item.parent_index.getD 0
                 season_title := item.title.getD "Unknown"
                 added_at := datetime_isoformat added_at
                 episode_count := episode_count
                 rating_key := rating_key
                 cover_url := cover_url }

/-- Loop body of `get_new_finished_seasons` (logic.py lines 82-141) for one
recently-added item: `none` when a gate drops the item (`continue`), `some`
of the emitted record otherwise. -/
def processItem (cutoff_date : Int)
    (is_new_show_func : String → Int → Bool)
    (is_season_finished_func : String → Bool)
    (get_show_cover_func : String → Option String)
    (get_children_func : String → List ChildItem)
    (item : RecentItem) : Option NewFinishedSeason :=
  if item.media_type != "season" then none
  else
    match item.added_at with
    | none => none
    | some .invalid => none
    | some (.valid added_at) =>
      if added_at < cutoff_date then none
      else processTail cutoff_date is_new_show_func is_season_finished_func
             get_show_cover_func get_children_func item added_at

/-- logic.py lines 64-143, `get_new_finished_seasons`; `now` models
`datetime.now()` and the cutoff is `now - timedelta(days=lookback_days)`. -/
def get_new_finished_seasons (lookback_days : Int) (now : Int)
    (get_recently_added_func : String → Nat → List RecentItem)
    (is_new_show_func : String → Int → Bool)
    (is_season_finished_func : String → Bool)
    (get_show_cover_func : String → Option String)
    (get_children_func : String → List ChildItem) : List NewFinishedSeason :=
  let cutoff_date := now - 86400 * lookback_days
  let recently_added := get_recently_added_func "season" 100
  if recently_added.isEmpty then []
  else
    recently_added.filterMap
      (processItem cutoff_date is_new_show_func is_season_finished_func
        get_show_cover_func get_children_func)

/-- All classification gates after the media-type check, as one decidable
predicate: timestamp present and parseable, recency (boundary inclusive),
show identity present and not a new show, rating key present, season
finished. -/
def passesGates (cutoff_date : Int)
    (is_new_show_func : String → Int → Bool)
    (is_season_finished_func : String → Bool)
    (item : RecentItem) : Bool :=
  match item.added_at with
  | some (.valid added_at) =>
    decide (cutoff_date ≤ added_at) &&
    (match item.grandparent_rating_key with
     | some grandparent_rating_key =>
       !(is_new_show_func grandparent_rating_key cutoff_date) &&
       (match item.rating_key with
        | some rating_key => is_season_finished_func rating_key
        | none => false)
     | none => false)
  | _ => false

/-- An item survives the whole loop body: it is a season and passes all
gates. -/
def survives (cutoff_date : Int)
    (is_new_show_func : String → Int → Bool)
    (is_season_finished_func : String → Bool)
    (item : RecentItem) : Bool :=
  item.media_type == "season" &&
    passesGates cutoff_date is_new_show_func is_season_finished_func item

/-- The record appended for a surviving item (logic.py lines 126-141). -/
def emitRecord (get_show_cover_func : String → Option String)
    (get_children_func : String → List ChildItem)
    (item : RecentItem) : NewFinishedSeason :=
  { «show» := item.parent_title.getD "Unknown"
    season := item.parent_index.getD 0
    season_title := item.title.getD "Unknown"
    added_at := datetime_isoformat
      (match item.added_at with | some (.valid t) => t | _ => 0)
    episode_count := rawEpisodeCount (get_children_func (item.rating_key.getD ""))
    rating_key := item.rating_key.getD ""
    cover_url := get_show_cover_func (item.grandparent_rating_key.getD "") }

/-! ### A model of the Python `json` module and string operations
used by the provider layer.  Literal brace characters are written via
`Char.ofNat`. -/

/-- The left brace character. -/
def lbraceChar : Char := Char.ofNat 123

/-- The right brace character. -/
def rbraceChar : Char := Char.ofNat 125

/-- JSON values as produced by `json.loads`.  Python parses JSON numbers with
a fraction or exponent to floats; floating point is out of the model, so such
tokens are kept as their raw text (`floatRaw`), which no claim inspects. -/
inductive Json where
  | null
  | bool (b : Bool)
  | num (n : Int)
  | floatRaw (raw : String)
  | str (s : String)
  | arr (xs : List Json)
  | obj (kvs : List (String × Json))

/-- One hex digit, lowercase, as emitted by `json.dumps` escapes. -/
def hexDigit (n : Nat) : Char :=
  if n < 10 then Char.ofNat (48 + n) else Char.ofNat (87 + n)

/-- Four lowercase hex digits. -/
def hex4 (n : Nat) : String :=
  String.mk [hexDigit (n / 4096 % 16), hexDigit (n / 256 % 16),
             hexDigit (n / 16 % 16), hexDigit (n % 16)]

/-- `json.dumps` escaping of one character with `ensure_ascii=True` (the
Python default): quote, backslash and control shortcuts, `\uXXXX` for other
control and non-ASCII characters, surrogate pairs above U+FFFF. -/
def jsonEscapeChar (c : Char) : String :=
  if c = '"' then "\\\""
  else if c = '\\' then "\\\\"
  else if c = '\n' then "\\n"
  else if c = '\t' then "\\t"
  else if c = '\r' then "\\r"
  else if c = Char.ofNat 8 then "\\b"
  else if c = Char.ofNat 12 then "\\f"
  else if 0x20 ≤ c.toNat ∧ c.toNat ≤ 0x7e then String.singleton c
  else if c.toNat < 0x10000 then "\\u" ++ hex4 c.toNat
  else
    let v := c.toNat - 0x10000
    "\\u" ++ hex4 (0xD800 + v / 0x400) ++ "\\u" ++ hex4 (0xDC00 + v % 0x400)

/-- `json.dumps` of a string. -/
def jsonDumpString (s : String) : String :=
  "\"" ++ String.join (s.data.map jsonEscapeChar) ++ "\""

mutual

/-- `json.dumps` with the default separators (item separator `", "`, key
separator `": "`). -/
def Json.dumps : Json → String
  | .null => "null"
  | .bool true => "true"
  | .bool false => "false"
  | .num n => toString n
  | .floatRaw raw => raw
  | .str s => jsonDumpString s
  | .arr xs => "[" ++ Json.dumpsList xs ++ "]"
  | .obj kvs => "\x7b" ++ Json.dumpsObj kvs ++ "\x7d"

/-- Array elements joined with `", "`. -/
def Json.dumpsList : List Json → String
  | [] => ""
  | [x] => Json.dumps x
  | x :: y :: rest => Json.dumps x ++ ", " ++ Json.dumpsList (y :: rest)

/-- Object members joined with `", "`, keys separated by `": "`. -/
def Json.dumpsObj : List (String × Json) → String
  | [] => ""
  | [(k, v)] => jsonDumpString k ++ ": " ++ Json.dumps v
  | (k, v) :: kv2 :: rest =>
      jsonDumpString k ++ ": " ++ Json.dumps v ++ ", " ++ Json.dumpsObj (kv2 :: rest)

end

/-- Python `dict` insertion: a duplicate key keeps its first position and
takes the latest value. -/
def dictInsert (d : List (String × Json)) (k : String) (v : Json) :
    List (String × Json) :=
  if d.any (fun kv => kv.1 == k) then
    d.map (fun kv => if kv.1 == k then (kv.1, v) else kv)
  else d ++ [(k, v)]

/-- JSON whitespace. -/
def isJsonWs (c : Char) : Bool := c = ' ' || c = '\t' || c = '\n' || c = '\r'

/-- Skip JSON whitespace. -/
def skipWs : List Char → List Char
  | c :: rest => if isJsonWs c then skipWs rest else c :: rest
  | [] => []

/-- Decimal digits to a natural number. -/
def digitsToNat (ds : List Char) : Nat :=
  ds.foldl (fun a c => a * 10 + (c.toNat - 48)) 0

/-- Value of one hex digit, both cases. -/
def hexVal (c : Char) : Option Nat :=
  if c.isDigit then some (c.toNat - 48)
  else if 'a' ≤ c ∧ c ≤ 'f' then some (c.toNat - 87)
  else if 'A' ≤ c ∧ c ≤ 'F' then some (c.toNat - 55)
  else none

/-- Optional fraction part of a JSON number: `.digits` or nothing. -/
def parseFracOpt (s : List Char) : Option (List Char × List Char) :=
  match s with
  | '.' :: r =>
    let ds := r.takeWhile Char.isDigit
    if ds.isEmpty then none else some ('.' :: ds, r.drop ds.length)
  | _ => some ([], s)

/-- Optional exponent part of a JSON number. -/
def parseExpOpt (s : List Char) : Option (List Char × List Char) :=
  match s with
  | c :: rest =>
    if c = 'e' || c = 'E' then
      let sgnSplit : List Char × List Char :=
        match rest with
        | x :: r => if x = '+' || x = '-' then ([x], r) else (([] : List Char), rest)
        | [] => ([], [])
      let ds := sgnSplit.2.takeWhile Char.isDigit
      if ds.isEmpty then none
      else some (c :: (sgnSplit.1 ++ ds), sgnSplit.2.drop ds.length)
    else some ([], s)
  | [] => some ([], [])

/-- JSON number token: `-?(0|[1-9][0-9]*)(\.[0-9]+)?([eE][+-]?[0-9]+)?`;
an integer token yields `Json.num`, otherwise the raw float text. -/
def parseNumber (s : List Char) : Option (Json × List Char) :=
  let negSplit : Bool × List Char :=
    match s with
    | '-' :: rest => (true, rest)
    | _ => (false, s)
  let neg := negSplit.1
  match negSplit.2 with
  | [] => none
  | c :: rest =>
    if !c.isDigit then none
    else
      let intDs := if c = '0' then [c] else c :: rest.takeWhile Char.isDigit
      let r1 := if c = '0' then rest else rest.drop (rest.takeWhile Char.isDigit).length
      match parseFracOpt r1 with
      | none => none
      | some (frac, r2) =>
        match parseExpOpt r2 with
        | none => none
        | some (ex, r3) =>
          if frac.isEmpty && ex.isEmpty then
            let n : Int := Int.ofNat (digitsToNat intDs)
            some (.num (if neg then -n else n), r3)
          else
            some (.floatRaw (String.mk ((if neg then ['-'] else []) ++ intDs ++ frac ++ ex)), r3)

/-- Prepend a char to the accumulated body of a string parse. -/
def consChar (c : Char) (r : Option (List Char × List Char)) :
    Option (List Char × List Char) :=
  r.map fun p => (c :: p.1, p.2)

/-- Body of a JSON string after the opening quote, strict mode: raw control
characters are rejected, `\uXXXX` escapes combine surrogate pairs.  A lone
surrogate (which CPython would keep as an unpaired surrogate code unit) is
not representable in a Lean `Char` and is modelled as a parse failure; no
claim exercises it. -/
def parseStringBody : Nat → List Char → Option (List Char × List Char)
  | 0, _ => none
  | _, [] => none
  | fuel+1, c :: rest =>
    if c = '"' then some ([], rest)
    else if c = '\\' then
      match rest with
      | [] => none
      | e :: r2 =>
        if e = '"' then consChar '"' (parseStringBody fuel r2)
        else if e = '\\' then consChar '\\' (parseStringBody fuel r2)
        else if e = '/' then consChar '/' (parseStringBody fuel r2)
        else if e = 'b' then consChar (Char.ofNat 8) (parseStringBody fuel r2)
        else if e = 'f' then consChar (Char.ofNat 12) (parseStringBody fuel r2)
        else if e = 'n' then consChar '\n' (parseStringBody fuel r2)
        else if e = 'r' then consChar '\r' (parseStringBody fuel r2)
        else if e = 't' then consChar '\t' (parseStringBody fuel r2)
        else if e = 'u' then
          match r2 with
          | a :: b :: cc :: d :: r3 =>
            match hexVal a, hexVal b, hexVal cc, hexVal d with
            | some ha, some hb, some hc, some hd =>
              let n := ha * 4096 + hb * 256 + hc * 16 + hd
              if 0xD800 ≤ n ∧ n ≤ 0xDBFF then
                match r3 with
                | x :: u :: a2 :: b2 :: c2 :: d2 :: r4 =>
                  if x = '\\' ∧ u = 'u' then
                    match hexVal a2, hexVal b2, hexVal c2, hexVal d2 with
                    | some ha2, some hb2, some hc2, some hd2 =>
                      let m := ha2 * 4096 + hb2 * 256 + hc2 * 16 + hd2
                      if 0xDC00 ≤ m ∧ m ≤ 0xDFFF then
                        consChar (Char.ofNat (0x10000 + (n - 0xD800) * 0x400 + (m - 0xDC00)))
                          (parseStringBody fuel r4)
                      else none
                    | _, _, _, _ => none
                  else none
                | _ => none
              else if 0xDC00 ≤ n ∧ n ≤ 0xDFFF then none
              else consChar (Char.ofNat n) (parseStringBody fuel r3)
            | _, _, _, _ => none
          | _ => none
        else none
    else if c.toNat < 0x20 then none
    else consChar c (parseStringBody fuel rest)

mutual

/-- One JSON value, recursive descent with fuel (the fuel passed at top level
strictly dominates the recursion depth of any parse of the input). -/
def parseValue : Nat → List Char → Option (Json × List Char)
  | 0, _ => none
  | fuel+1, s =>
    match skipWs s with
    | [] => none
    | c :: rest =>
      if c = lbraceChar then
        match skipWs rest with
        | d :: r2 =>
          if d = rbraceChar then some (.obj [], r2)
          else parseObjItems fuel (d :: r2) []
        | [] => none
      else if c = '[' then
        match skipWs rest with
        | d :: r2 =>
          if d = ']' then some (.arr [], r2)
          else parseArrItems fuel (d :: r2) []
        | [] => none
      else if c = '"' then
        match parseStringBody (rest.length + 1) rest with
        | some (body, r2) => some (.str (String.mk body), r2)
        | none => none
      else if List.isPrefixOf "true".data (c :: rest) then
        some (.bool true, (c :: rest).drop 4)
      else if List.isPrefixOf "false".data (c :: rest) then
        some (.bool false, (c :: rest).drop 5)
      else if List.isPrefixOf "null".data (c :: rest) then
        some (.null, (c :: rest).drop 4)
      else if List.isPrefixOf "NaN".data (c :: rest) then
        some (.floatRaw "NaN", (c :: rest).drop 3)
      else if List.isPrefixOf "Infinity".data (c :: rest) then
        some (.floatRaw "Infinity", (c :: rest).drop 8)
      else if List.isPrefixOf "-Infinity".data (c :: rest) then
        some (.floatRaw "-Infinity", (c :: rest).drop 9)
      else parseNumber (c :: rest)

/-- Array elements after `[`, first element pending. -/
def parseArrItems : Nat → List Char → List Json → Option (Json × List Char)
  | 0, _, _ => none
  | fuel+1, s, acc =>
    match parseValue fuel s with
    | none => none
    | some (v, r) =>
      match skipWs r with
      | c :: r2 =>
        if c = ',' then parseArrItems fuel r2 (acc ++ [v])
        else if c = ']' then some (.arr (acc ++ [v]), r2)
        else none
      | [] => none

/-- Object members after the opening brace, first member pending; duplicate
keys follow Python `dict` semantics via `dictInsert`. -/
def parseObjItems : Nat → List Char → List (String × Json) →
    Option (Json × List Char)
  | 0, _, _ => none
  | fuel+1, s, acc =>
    match skipWs s with
    | c :: rest =>
      if c = '"' then
        match parseStringBody (rest.length + 1) rest with
        | none => none
        | some (key, r1) =>
          match skipWs r1 with
          | d :: r2 =>
            if d = ':' then
              match parseValue fuel r2 with
              | none => none
              | some (v, r3) =>
                let acc2 := dictInsert acc (String.mk key) v
                match skipWs r3 with
                | e :: r4 =>
                  if e = ',' then parseObjItems fuel r4 acc2
                  else if e = rbraceChar then some (.obj acc2, r4)
                  else none
                | [] => none
            else none
          | [] => none
      else none
    | [] => none

end

/-- `json.loads`: parse one document, leading and trailing whitespace only. -/
def json_loads (s : String) : Option Json :=
  match parseValue (8 * (s.data.length + 1)) s.data with
  | some (v, rest) => if (skipWs rest).isEmpty then some v else none
  | none => none

/-- Python `str.replace`: left-to-right, non-overlapping.  The empty-pattern
case never arises (all replaced tokens are non-empty literals). -/
def replaceAux : Nat → List Char → List Char → List Char → List Char
  | 0, s, _, _ => s
  | fuel+1, s, old, new =>
    match s with
    | [] => []
    | c :: rest =>
      if List.isPrefixOf old (c :: rest) then
        new ++ replaceAux fuel ((c :: rest).drop old.length) old new
      else c :: replaceAux fuel rest old new

/-- Python `str.replace` on strings. -/
def pyReplace (s old new : String) : String :=
  if old.isEmpty then s
  else String.mk (replaceAux s.length s.data old.data new.data)

/-- Association-list lookup used for `str.format` keyword arguments. -/
def lookupStr (vals : List (String × String)) (k : String) : Option String :=
  match vals.find? (fun kv => kv.1 == k) with
  | some kv => some kv.2
  | none => none

/-- Python `str.format` restricted to literal `\x7bname\x7d` tokens and
`\x7b\x7b`/`\x7d\x7d` escapes, which is the shape the spec guarantees for
message templates (§4.3).  `none` models the exception `str.format` raises on
a stray brace or an unknown keyword. -/
def pyFormatAux : Nat → List Char → List (String × String) → Option (List Char)
  | 0, _, _ => none
  | _, [], _ => some []
  | fuel+1, c :: rest, vals =>
    if c = lbraceChar then
      match rest with
      | d :: r2 =>
        if d = lbraceChar then (pyFormatAux fuel r2 vals).map (c :: ·)
        else
          let name := rest.takeWhile (fun x => x ≠ rbraceChar)
          match rest.drop name.length with
          | e :: r3 =>
            if e = rbraceChar then
              match lookupStr vals (String.mk name) with
              | some v => (pyFormatAux fuel r3 vals).map (fun t => v.data ++ t)
              | none => none
            else none
          | [] => none
      | [] => none
    else if c = rbraceChar then
      match rest with
      | d :: r2 =>
        if d = rbraceChar then (pyFormatAux fuel r2 vals).map (c :: ·)
        else none
      | [] => none
    else (pyFormatAux fuel rest vals).map (c :: ·)

/-- Python `str.format` on strings (see `pyFormatAux`). -/
def pyFormat (template : String) (vals : List (String × String)) : Option String :=
  (pyFormatAux (template.length + 1) template.data vals).map String.mk

/-- Python `str.strip` with no argument: whitespace trimmed at both ends. -/
def pyStrip (s : String) : String :=
  String.mk (((s.data.dropWhile Char.isWhitespace).reverse.dropWhile
    Char.isWhitespace).reverse)

/-- Splitting worker for `pySplit`: boundary at every occurrence of the
(non-empty) separator, left to right. -/
def pySplitAux : Nat → List Char → List Char → List Char → List (List Char)
  | 0, rest, _, cur => [cur.reverse ++ rest]
  | fuel+1, s, sep, cur =>
    match s with
    | [] => [cur.reverse]
    | c :: rest =>
      if List.isPrefixOf sep (c :: rest) then
        cur.reverse :: pySplitAux fuel ((c :: rest).drop sep.length) sep []
      else pySplitAux fuel rest sep (c :: cur)

/-- Python `str.split(sep)` with a non-empty separator. -/
def pySplit (s sep : String) : List String :=
  if sep.isEmpty then [s]
  else (pySplitAux (s.data.length + 1) s.data sep.data []).map String.mk

/-! ### Provider configuration dictionaries
The provider config is a Python `dict[str, Any]`; the values stored by this
repository are strings, ints and bools. -/

/-- A provider-config dictionary value. -/
inductive ConfigVal where
  | vstr (s : String)
  | vint (n : Int)
  | vbool (b : Bool)
deriving DecidableEq, Repr

/-- A provider config: a string-keyed dictionary in insertion order. -/
def ProviderConfig := List (String × ConfigVal)

/-- Python `dict.get(k)`. -/
def cfgGet (cfg : ProviderConfig) (k : String) : Option ConfigVal :=
  match List.find? (fun kv => kv.1 == k) cfg with
  | some kv => some kv.2
  | none => none

/-- Python `dict.get(k, default)`. -/
def cfgGetD (cfg : ProviderConfig) (k : String) (d : ConfigVal) : ConfigVal :=
  (cfgGet cfg k).getD d

/-- Python truthiness of an optional config value (`None`, `""`, `0` and
`False` are falsy). -/
def truthyCfg : Option ConfigVal → Bool
  | none => false
  | some (.vstr s) => s != ""
  | some (.vint n) => n != 0
  | some (.vbool b) => b

/-- Python `str()` of a config value. -/
def pyStr : ConfigVal → String
  | .vstr s => s
  | .vint n => toString n
  | .vbool true => "True"
  | .vbool false => "False"

/-- The JSON value `json.dumps` serializes a config value to. -/
def cfgToJson : ConfigVal → Json
  | .vstr s => .str s
  | .vint n => .num n
  | .vbool b => .bool b

/-- The season dictionary as a JSON value, fields in the insertion order of
logic.py lines 131-141. -/
def seasonToJson (s : NewFinishedSeason) : Json :=
  .obj [("show", .str s.«show»),
        ("season", .num s.season),
        ("season_title", .str s.season_title),
        ("added_at", .str s.added_at),
        ("episode_count", .num s.episode_count),
        ("rating_key", .str s.rating_key),
        ("cover_url", match s.cover_url with | none => .null | some u => .str u)]

/-- The comma-joined show list of base.py lines 39-41 and generic.py
lines 24-26: `"Show SN"` per season, or the literal `"None"` when empty. -/
def show_list_of (seasons : List NewFinishedSeason) : String :=
  if seasons.isEmpty then "None"
  else String.intercalate ", "
    (seasons.map fun s => s.«show» ++ " S" ++ toString s.season)

/-- Default message template of base.py line 37. -/
def defaultMessageTemplate : String :=
  "📺 {season_count} new season(s) completed this week!"

/-- base.py lines 34-49, `WebhookProvider.format_message`; `now_iso` models
`datetime.now().isoformat()`.  `none` models the exception raised when the
configured template is not a string or `str.format` fails on it. -/
def format_message (cfg : ProviderConfig) (now_iso : String)
    (seasons : List NewFinishedSeason) : Option String :=
  match cfgGetD cfg "message_template" (.vstr defaultMessageTemplate) with
  | .vstr template =>
    pyFormat template
      [("season_count", toString seasons.length),
       ("period_days", pyStr (cfgGetD cfg "lookback_days" (.vint 7))),
       ("timestamp", now_iso),
       ("show_list", show_list_of seasons)]
  | _ => none

/-- The six sequential `str.replace` calls of generic.py lines 29-39, each
substituted value serialized with `json.dumps` first. -/
def substituteTokens (template now_iso : String) (cfg : ProviderConfig)
    (seasons : List NewFinishedSeason) (message : String) : String :=
  let show_list := show_list_of seasons
  let t1 := pyReplace template "{timestamp}" (Json.dumps (.str now_iso))
  let t2 := pyReplace t1 "{period_days}"
    (Json.dumps (cfgToJson (cfgGetD cfg "lookback_days" (.vint 7))))
  let t3 := pyReplace t2 "{season_count}" (Json.dumps (.num seasons.length))
  let t4 := pyReplace t3 "{message}" (Json.dumps (.str message))
  let t5 := pyReplace t4 "{show_list}" (Json.dumps (.str show_list))
  pyReplace t5 "{seasons}" (Json.dumps (.arr (seasons.map seasonToJson)))

/-- Python `dict(x)` applied to a parsed JSON value, as on generic.py
line 42.  An object converts to itself; a list converts when its elements
are string-keyed pairs (other hashable key types are outside the
`dict[str, Any]` model); anything else raises `TypeError`, which the source
does not catch. -/
def pyDictOfJson : Json → Except String (List (String × Json))
  | .obj kvs => .ok kvs
  | .arr xs =>
    xs.foldlM
      (fun d x =>
        match x with
        | .arr [.str k, v] => Except.ok (dictInsert d k v)
        | _ => Except.error "TypeError: cannot convert to dict")
      []
  | _ => .error "TypeError: cannot convert to dict"

/-- The default payload dictionary of generic.py lines 48-54. -/
def defaultPayload (cfg : ProviderConfig) (now_iso : String)
    (seasons : List NewFinishedSeason) (message : String) :
    List (String × Json) :=
  [("timestamp", .str now_iso),
   ("period_days", cfgToJson (cfgGetD cfg "lookback_days" (.vint 7))),
   ("season_count", .num seasons.length),
   ("seasons", .arr (seasons.map seasonToJson)),
   ("message", .str message)]

/-- generic.py lines 13-54, `GenericProvider.build_payload`.  `Except.error`
models an uncaught exception (message formatting failure, a truthy non-string
template, or `dict()` failing on a parsed non-object); `json.JSONDecodeError`
is the one exception the source catches, falling back to the default
payload. -/
def GenericProvider_build_payload (cfg : ProviderConfig) (now_iso : String)
    (seasons : List NewFinishedSeason) : Except String (List (String × Json)) :=
  match format_message cfg now_iso seasons with
  | none => .error "format_message raised"
  | some message =>
    let payload_template := cfgGet cfg "webhook_payload_template"
    if truthyCfg payload_template then
      match payload_template with
      | some (.vstr template) =>
        match json_loads (substituteTokens template now_iso cfg seasons message) with
        | some v => pyDictOfJson v
        | none => .ok (defaultPayload cfg now_iso seasons message)
      | _ => .error "AttributeError: replace on non-string template"
    else .ok (defaultPayload cfg now_iso seasons message)

/-! ### Signal CLI provider (providers/signal_cli.py) -/

/-- signal_cli.py lines 14-21, `SignalCliProvider.validate_config`. -/
def SignalCliProvider_validate_config (cfg : ProviderConfig) : Bool :=
  truthyCfg (cfgGet cfg "signal_number") &&
    truthyCfg (cfgGet cfg "signal_recipients")

/-- signal_cli.py lines 23-25: never send on empty. -/
def SignalCliProvider_should_send_on_empty : Bool := false

/-- base.py lines 19-21: the base `should_send_on_empty`. -/
def WebhookProvider_should_send_on_empty (cfg : ProviderConfig) : Bool :=
  truthyCfg (some (cfgGetD cfg "webhook_on_empty" (.vbool false)))

/-- base.py lines 15-17: the base `validate_config` is always valid. -/
def WebhookProvider_validate_config (_cfg : ProviderConfig) : Bool := true

/-- signal_cli.py lines 27-32, `_parse_recipients`; the error case models the
`AttributeError` from `.split` on a truthy non-string value. -/
def parse_recipients (cfg : ProviderConfig) : Except String (List String) :=
  let recipients_str := cfgGetD cfg "signal_recipients" (.vstr "")
  if !truthyCfg (some recipients_str) then .ok []
  else
    match recipients_str with
    | .vstr s => .ok (((pySplit s ",").map pyStrip).filter (fun r => r != ""))
    | _ => .error "AttributeError: split on non-string"

/-- signal_cli.py lines 34-47, `_get_covers_as_base64`.  `download` models
`urlopen(url).read()` followed by base64 encoding: `some` is the encoded
text, `none` any exception (logged and skipped by the source). -/
def get_covers_as_base64 (download : String → Option String)
    (seasons : List NewFinishedSeason) : List String :=
  seasons.filterMap fun season =>
    match season.cover_url with
    | none => none
    | some cover_url => if cover_url == "" then none else download cover_url

/-- signal_cli.py lines 49-69, `SignalCliProvider.format_message`; `now_hm`
models `datetime.now().strftime` of the minute format. -/
def SignalCliProvider_format_message (cfg : ProviderConfig) (now_hm : String)
    (seasons : List NewFinishedSeason) : String :=
  let count := seasons.length
  let period := pyStr (cfgGetD cfg "lookback_days" (.vint 7))
  let season_plural := if count > 1 then "s" else ""
  let header := "📺 *" ++ toString count ++ " new season" ++ season_plural ++
    "* completed in the last " ++ period ++ " days!"
  let bullets := seasons.map fun season =>
    "• *" ++ season.«show» ++ "* - Season " ++ toString season.season ++
      " (" ++ toString season.episode_count ++ " episodes)"
  String.intercalate "\n"
    ((header :: "" :: bullets) ++ ["", "_" ++ now_hm ++ "_"])

/-- signal_cli.py lines 71-88, `SignalCliProvider.build_payload`.
`Except.error` models an uncaught exception (`KeyError` on a missing
`signal_number`, or `_parse_recipients` raising). -/
def SignalCliProvider_build_payload (cfg : ProviderConfig) (now_hm : String)
    (download : String → Option String) (seasons : List NewFinishedSeason) :
    Except String (List (String × Json)) :=
  let message := SignalCliProvider_format_message cfg now_hm seasons
  match parse_recipients cfg with
  | .error e => .error e
  | .ok recipients =>
    match cfgGet cfg "signal_number" with
    | none => .error "KeyError: signal_number"
    | some number =>
      let payload : List (String × Json) :=
        [("message", .str message),
         ("number", cfgToJson number),
         ("recipients", .arr (recipients.map Json.str)),
         ("text_mode", cfgToJson (cfgGetD cfg "signal_text_mode" (.vstr "styled")))]
      if truthyCfg (cfgGet cfg "signal_include_covers") && !seasons.isEmpty then
        let base64_covers := get_covers_as_base64 download seasons
        if base64_covers.isEmpty then .ok payload
        else .ok (payload ++ [("base64_attachments", .arr (base64_covers.map Json.str))])
      else .ok payload

/-! ### Configuration dataclass and provider selection
(config.py and main.py) -/

/-- config.py lines 9-36, the `Config` dataclass with its field defaults. -/
structure Config where
  tautulli_url : String := ""
  tautulli_apikey : String := ""
  plex_url : String := ""
  plex_token : String := ""
  webhook_url : String := ""
  webhook_mode : String := "default"
  webhook_message_template : String :=
    "📺 {season_count} new season(s) completed this week!"
  webhook_on_empty : Bool := false
  webhook_payload_template : String := "default"
  signal_number : String := ""
  signal_recipients : String := ""
  signal_text_mode : String := "styled"
  signal_include_covers : Bool := false
  lookback_days : Int := 7
  debug : Bool := false
deriving DecidableEq, Repr

/-- config.py lines 86-98, `Config.get_provider_config`: the dictionary
literal in source order.  Note the payload template is stored under the key
`"payload_template"`. -/
def get_provider_config (c : Config) : ProviderConfig :=
  [("webhook_url", .vstr c.webhook_url),
   ("webhook_on_empty", .vbool c.webhook_on_empty),
   ("message_template", .vstr c.webhook_message_template),
   ("payload_template", .vstr c.webhook_payload_template),
   ("lookback_days", .vint c.lookback_days),
   ("signal_number", .vstr c.signal_number),
   ("signal_recipients", .vstr c.signal_recipients),
   ("signal_text_mode", .vstr c.signal_text_mode),
   ("signal_include_covers", .vbool c.signal_include_covers)]

/-- The provider variant chosen by the factory. -/
inductive ProviderKind where
  | signalCli
  | generic
deriving DecidableEq, Repr

/-- Python `str.lower` restricted to ASCII (mode strings are ASCII). -/
def pyLower (s : String) : String := String.mk (s.data.map Char.toLower)

/-- main.py lines 20-46, `get_webhook_provider`; `Except.error` carries the
`ValueError` message. -/
def get_webhook_provider (config : Config) : Except String ProviderKind :=
  let provider_config := get_provider_config config
  let mode := pyLower config.webhook_mode
  if mode == "signal-cli" then
    if SignalCliProvider_validate_config provider_config then .ok .signalCli
    else .error ("Invalid configuration for " ++ mode ++ " provider")
  else if mode == "default" || mode == "custom" then
    if WebhookProvider_validate_config provider_config then .ok .generic
    else .error ("Invalid configuration for " ++ mode ++ " provider")
  else .error ("Unsupported webhook_mode: " ++ config.webhook_mode)

/-! ### Helper lemmas -/

/-- The loop body emits exactly the surviving items' records. -/
theorem processItem_eq_ite (c : Int) (fn : String → Int → Bool)
    (fs : String → Bool) (fc : String → Option String)
    (fch : String → List ChildItem) (item : RecentItem) :
    processItem c fn fs fc fch item =
      if survives c fn fs item then some (emitRecord fc fch item) else none := by
  rcases item with ⟨mt, rk, ti, pt, grk, pi, aa⟩
  by_cases hmt : mt = "season"
  · subst hmt
    rcases aa with _ | aa
    · simp [processItem, survives, passesGates]
    rcases aa with t | _
    · by_cases ht : t < c
      · have hnle : ¬ c ≤ t := by omega
        simp [processItem, survives, passesGates, ht, hnle]
      · have hle : c ≤ t := by omega
        rcases grk with _ | g
        · simp [processItem, processTail, survives, passesGates, ht]
        by_cases hnew : fn g c = true
        · simp [processItem, processTail, survives, passesGates, ht, hnew]
        · rcases rk with _ | r
          · simp [processItem, processTail, survives, passesGates, ht, hnew]
          · by_cases hfin : fs r = true
            · simp [processItem, processTail, survives, passesGates, emitRecord,
                    ht, hle, hnew, hfin]
            · simp [processItem, processTail, survives, passesGates, ht, hnew, hfin]
    · simp [processItem, survives, passesGates]
  · have hmt2 : (mt == "season") = false := by simpa using hmt
    simp [processItem, survives, hmt2, hmt]

/-- `filterMap` of the loop body is `filter`-then-`map`. -/
theorem filterMap_processItem (c : Int) (fn : String → Int → Bool)
    (fs : String → Bool) (fc : String → Option String)
    (fch : String → List ChildItem) (l : List RecentItem) :
    l.filterMap (processItem c fn fs fc fch) =
      (l.filter (survives c fn fs)).map (emitRecord fc fch) := by
  induction l with
  | nil => rfl
  | cons x xs ih =>
    rw [List.filterMap_cons, List.filter_cons, processItem_eq_ite]
    by_cases h : survives c fn fs x
    · simp [h, ih]
    · simp [h, ih]

/-- `get_new_finished_seasons` characterized as filter-then-map over the
fetched list. -/
theorem get_new_finished_seasons_eq (lookback_days now : Int)
    (fr : String → Nat → List RecentItem) (fn : String → Int → Bool)
    (fs : String → Bool) (fc : String → Option String)
    (fch : String → List ChildItem) :
    get_new_finished_seasons lookback_days now fr fn fs fc fch =
      ((fr "season" 100).filter (survives (now - 86400 * lookback_days) fn fs)).map
        (emitRecord fc fch) := by
  unfold get_new_finished_seasons
  by_cases h : (fr "season" 100).isEmpty
  · rw [List.isEmpty_iff] at h
    simp [h]
  · simp only [h, if_neg, Bool.false_eq_true, reduceIte]
    exact filterMap_processItem _ _ _ _ _ _

/-! ### Claim theorems -/

/-- C1: the output of `get_new_finished_seasons` is exactly one record per
fetched item (media type "season", limit 100) whose `media_type` is "season"
and that passes all gates, in upstream order (filter-then-map preserves
order), and any item whose `media_type` is not "season" never survives. -/
theorem get_new_finished_seasons_one_record_per_survivor
    (lookback_days now : Int)
    (fr : String → Nat → List RecentItem) (fn : String → Int → Bool)
    (fs : String → Bool) (fc : String → Option String)
    (fch : String → List ChildItem) :
    get_new_finished_seasons lookback_days now fr fn fs fc fch =
      ((fr "season" 100).filter (survives (now - 86400 * lookback_days) fn fs)).map
        (emitRecord fc fch) ∧
    ∀ item : RecentItem, item.media_type ≠ "season" →
      survives (now - 86400 * lookback_days) fn fs item = false := by
  refine ⟨get_new_finished_seasons_eq lookback_days now fr fn fs fc fch, ?_⟩
  intro item hmt
  have hmt2 : (item.media_type == "season") = false := by simpa using hmt
  simp [survives, hmt2]

/-- C1 witness: a non-season item never survives, at a concrete input. -/
theorem get_new_finished_seasons_one_record_per_survivor_witness :
    survives (0 - 86400 * 0) (fun _ _ => false) (fun _ => true)
      { media_type := "movie", rating_key := some "1", title := none,
        parent_title := none, grandparent_rating_key := some "2",
        parent_index := none, added_at := some (.valid 5) } = false :=
  (get_new_finished_seasons_one_record_per_survivor 0 0 (fun _ _ => [])
    (fun _ _ => false) (fun _ => true) (fun _ => none) (fun _ => [])).2
    _ (by decide)

/-- C2: `is_new_show` is true exactly when the metadata fetch yields a record
whose `added_at` is present and parses to a time at or after the cutoff; a
failed fetch yields false (fail-open, the warning log is a side effect); and
an item whose owning show is new is excluded from the output whatever the
finished-check would say. -/
theorem is_new_show_spec (grk : String) (cutoff : Int)
    (f : String → Option ShowMetadata)
    (fs : String → Bool) (fc : String → Option String)
    (fch : String → List ChildItem) (item : RecentItem) :
    (is_new_show grk cutoff f = true ↔
      ∃ md, f grk = some md ∧ ∃ t, md.added_at = some (.valid t) ∧ cutoff ≤ t) ∧
    (f grk = none → is_new_show grk cutoff f = false) ∧
    (∀ g, item.grandparent_rating_key = some g →
      is_new_show g cutoff f = true →
      processItem cutoff (fun k cut => is_new_show k cut f) fs fc fch item = none) := by
  refine ⟨⟨?_, ?_⟩, ?_, ?_⟩
  · intro h
    unfold is_new_show at h
    rcases hf : f grk with _ | md
    · simp only [hf] at h
      simp at h
    · simp only [hf] at h
      rcases ha : md.added_at with _ | aa
      · simp only [ha] at h
        simp at h
      · rcases aa with t | _
        · simp only [ha, decide_eq_true_eq, ge_iff_le] at h
          exact ⟨md, rfl, t, ha, h⟩
        · simp only [ha] at h
          simp at h
  · rintro ⟨md, hf, t, ha, hle⟩
    unfold is_new_show
    simp only [hf, ha]
    simpa [ge_iff_le] using hle
  · intro hf
    unfold is_new_show
    rw [hf]
  · intro g hg hnew
    rw [processItem_eq_ite]
    suffices h : survives cutoff (fun k cut => is_new_show k cut f) fs item = false by
      simp [h]
    rcases haa : item.added_at with _ | aa
    · simp [survives, passesGates, haa]
    rcases aa with t | _
    · simp [survives, passesGates, haa, hg, hnew]
    · simp [survives, passesGates, haa]

/-- C2 witness: the three parts of `is_new_show_spec` at concrete inputs. -/
theorem is_new_show_spec_witness :
    is_new_show "g" 10 (fun _ => some ⟨some (.valid 12)⟩) = true ∧
    is_new_show "g" 10 (fun _ => none) = false ∧
    processItem 10 (fun k cut => is_new_show k cut (fun _ => some ⟨some (.valid 12)⟩))
      (fun _ => true) (fun _ => none) (fun _ => [])
      { media_type := "season", rating_key := some "r", title := none,
        parent_title := none, grandparent_rating_key := some "g",
        parent_index := none, added_at := some (.valid 20) } = none :=
  ⟨(is_new_show_spec "g" 10 (fun _ => some ⟨some (.valid 12)⟩) (fun _ => true)
      (fun _ => none) (fun _ => [])
      { media_type := "season", rating_key := some "r", title := none,
        parent_title := none, grandparent_rating_key := some "g",
        parent_index := none, added_at := some (.valid 20) }).1.mpr
      ⟨⟨some (.valid 12)⟩, rfl, 12, rfl, by decide⟩,
   (is_new_show_spec "g" 10 (fun _ => none) (fun _ => true) (fun _ => none)
      (fun _ => [])
      { media_type := "season", rating_key := some "r", title := none,
        parent_title := none, grandparent_rating_key := some "g",
        parent_index := none, added_at := some (.valid 20) }).2.1 rfl,
   (is_new_show_spec "g" 10 (fun _ => some ⟨some (.valid 12)⟩) (fun _ => true)
      (fun _ => none) (fun _ => [])
      { media_type := "season", rating_key := some "r", title := none,
        parent_title := none, grandparent_rating_key := some "g",
        parent_index := none, added_at := some (.valid 20) }).2.2
      "g" rfl (by decide)⟩

/-- C3: `is_season_finished` is true iff the fetched children contain an
episode with a non-empty file path not ending in ".strm"; zero children or
only placeholder children yield false, and such a season is excluded from
the output. -/
theorem is_season_finished_spec (key : String) (g : String → List ChildItem) :
    (is_season_finished key g = true ↔
      ∃ ep ∈ g key, ep.media_type = "episode" ∧ ep.file ≠ "" ∧
        pyEndsWith ep.file ".strm" = false) ∧
    (g key = [] → is_season_finished key g = false) ∧
    (∀ (c : Int) (fn : String → Int → Bool) (fc : String → Option String)
       (fch : String → List ChildItem) (item : RecentItem) (rk : String),
      item.rating_key = some rk → is_season_finished rk g = false →
      processItem c fn (fun k => is_season_finished k g) fc fch item = none) := by
  refine ⟨?_, ?_, ?_⟩
  · by_cases h : (g key).isEmpty
    · rw [List.isEmpty_iff] at h
      simp [is_season_finished, h]
    · simp only [is_season_finished, h, Bool.false_eq_true, if_false,
        decide_eq_true_eq, availableEpisodes, List.countP_pos_iff]
      constructor
      · rintro ⟨ep, hmem, hp⟩
        simp only [Bool.and_eq_true, beq_iff_eq, bne_iff_ne, Bool.not_eq_true'] at hp
        exact ⟨ep, hmem, hp.1.1, hp.1.2, hp.2⟩
      · rintro ⟨ep, hmem, h1, h2, h3⟩
        refine ⟨ep, hmem, ?_⟩
        simp [h1, h2, h3]
  · intro h
    simp [is_season_finished, h]
  · intro c fn fc fch item rk hrk hfin
    rw [processItem_eq_ite]
    suffices h : survives c fn (fun k => is_season_finished k g) item = false by
      simp [h]
    rcases haa : item.added_at with _ | aa
    · simp [survives, passesGates, haa]
    rcases aa with t | _
    · rcases hg : item.grandparent_rating_key with _ | gg
      · simp [survives, passesGates, haa, hg]
      · simp [survives, passesGates, haa, hg, hrk, hfin]
    · simp [survives, passesGates, haa]

/-- C3 witness: a real episode makes a season finished, an empty child list
does not. -/
theorem is_season_finished_spec_witness :
    is_season_finished "k" (fun _ => [⟨"episode", "a.mkv"⟩]) = true ∧
    is_season_finished "k" (fun _ => []) = false :=
  ⟨(is_season_finished_spec "k" (fun _ => [⟨"episode", "a.mkv"⟩])).1.mpr
      ⟨⟨"episode", "a.mkv"⟩, by decide⟩,
   (is_season_finished_spec "k" (fun _ => [])).2.1 rfl⟩

/-- C4: for a season item with a parseable timestamp `t`, the loop drops it
at the recency gate exactly when `t < cutoff`; at `t = cutoff` it proceeds to
the later gates (boundary inclusive). -/
theorem recency_gate_boundary (c : Int) (fn : String → Int → Bool)
    (fs : String → Bool) (fc : String → Option String)
    (fch : String → List ChildItem) (item : RecentItem) (t : Int)
    (hmt : item.media_type = "season") (haa : item.added_at = some (.valid t)) :
    (processItem c fn fs fc fch item =
      if t < c then none else processTail c fn fs fc fch item t) ∧
    (t = c → processItem c fn fs fc fch item = processTail c fn fs fc fch item t) := by
  have hmt2 : (item.media_type != "season") = false := by simp [hmt]
  have h1 : processItem c fn fs fc fch item =
      if t < c then none else processTail c fn fs fc fch item t := by
    simp [processItem, hmt2, haa]
  refine ⟨h1, fun ht => ?_⟩
  subst ht
  rw [h1, if_neg (lt_irrefl t)]

/-- C4 witness: an item whose timestamp equals the cutoff is not dropped at
the recency gate. -/
theorem recency_gate_boundary_witness :
    processItem 50 (fun _ _ => false) (fun _ => true) (fun _ => none)
      (fun _ => [⟨"episode", "x.mkv"⟩])
      { media_type := "season", rating_key := some "r", title := none,
        parent_title := none, grandparent_rating_key := some "g",
        parent_index := none, added_at := some (.valid 50) } =
    processTail 50 (fun _ _ => false) (fun _ => true) (fun _ => none)
      (fun _ => [⟨"episode", "x.mkv"⟩])
      { media_type := "season", rating_key := some "r", title := none,
        parent_title := none, grandparent_rating_key := some "g",
        parent_index := none, added_at := some (.valid 50) } 50 :=
  (recency_gate_boundary 50 (fun _ _ => false) (fun _ => true) (fun _ => none)
    (fun _ => [⟨"episode", "x.mkv"⟩])
    { media_type := "season", rating_key := some "r", title := none,
      parent_title := none, grandparent_rating_key := some "g",
      parent_index := none, added_at := some (.valid 50) } 50 rfl rfl).2 rfl

/-- C5: every output record's `episode_count` is the raw count of children
with `media_type = "episode"` from a fresh fetch of the record's season, with
no file-path filtering, so it can exceed the finished-check's filtered
count. -/
theorem episode_count_matches_raw_children (lookback_days now : Int)
    (fr : String → Nat → List RecentItem) (fn : String → Int → Bool)
    (fs : String → Bool) (fc : String → Option String)
    (fch : String → List ChildItem) :
    (∀ r ∈ get_new_finished_seasons lookback_days now fr fn fs fc fch,
       r.episode_count = rawEpisodeCount (fch r.rating_key)) ∧
    rawEpisodeCount [⟨"episode", "virtual.strm"⟩] >
      availableEpisodes [⟨"episode", "virtual.strm"⟩] := by
  constructor
  · intro r hr
    rw [get_new_finished_seasons_eq] at hr
    obtain ⟨item, hmem, rfl⟩ := List.mem_map.mp hr
    simp [emitRecord]
  · decide

/-- C5 witness: a concrete run where the emitted count (2, counting a
placeholder episode) matches the raw count of the fresh fetch. -/
theorem episode_count_matches_raw_children_witness :
    (2 : Nat) = rawEpisodeCount [⟨"episode", "e.strm"⟩, ⟨"episode", "e.mkv"⟩] :=
  (episode_count_matches_raw_children 0 0
    (fun _ _ => [{ media_type := "season", rating_key := some "s", title := none,
                   parent_title := none, grandparent_rating_key := some "g",
                   parent_index := none, added_at := some (.valid 5) }])
    (fun _ _ => false) (fun _ => true) (fun _ => none)
    (fun _ => [⟨"episode", "e.strm"⟩, ⟨"episode", "e.mkv"⟩])).1
    { «show» := "Unknown", season := 0, season_title := "Unknown",
      added_at := datetime_isoformat 5, episode_count := 2, rating_key := "s",
      cover_url := none }
    (by decide)

/-- C6: with a configured (truthy string) payload template and a rendered
message, `build_payload` substitutes the six tokens with JSON-serialized
values (see `substituteTokens`) and parses the result: a parsed JSON object
is returned as the payload, and a parse failure falls back to the fixed
default payload shape instead of raising. -/
theorem generic_build_payload_template_fallback (cfg : ProviderConfig)
    (now_iso : String) (seasons : List NewFinishedSeason)
    (template message : String)
    (htpl : cfgGet cfg "webhook_payload_template" = some (.vstr template))
    (hne : template ≠ "")
    (hmsg : format_message cfg now_iso seasons = some message) :
    (∀ kvs, json_loads (substituteTokens template now_iso cfg seasons message) =
        some (.obj kvs) →
      GenericProvider_build_payload cfg now_iso seasons = .ok kvs) ∧
    (json_loads (substituteTokens template now_iso cfg seasons message) = none →
      GenericProvider_build_payload cfg now_iso seasons =
        .ok (defaultPayload cfg now_iso seasons message)) := by
  have htr : truthyCfg (some (ConfigVal.vstr template)) = true := by
    simpa [truthyCfg] using hne
  constructor
  · intro kvs hp
    unfold GenericProvider_build_payload
    simp [hmsg, htpl, htr, hp, pyDictOfJson]
  · intro hp
    unfold GenericProvider_build_payload
    simp [hmsg, htpl, htr, hp]

/-- C6 witness: a lone-brace template fails to parse and yields the default
payload at a concrete config. -/
theorem generic_build_payload_template_fallback_witness :
    GenericProvider_build_payload
      [("webhook_payload_template", ConfigVal.vstr "\x7b"),
       ("message_template", ConfigVal.vstr "msg")] "T" [] =
      .ok (defaultPayload
        [("webhook_payload_template", ConfigVal.vstr "\x7b"),
         ("message_template", ConfigVal.vstr "msg")] "T" [] "msg") :=
  (generic_build_payload_template_fallback
    [("webhook_payload_template", ConfigVal.vstr "\x7b"),
     ("message_template", ConfigVal.vstr "msg")] "T" [] "\x7b" "msg"
    rfl (by decide) rfl).2 rfl

/-- C7: with the configured template `\x7b"count":\x7bseason_count\x7d\x7d`
and a two-element seasons list, the `\x7bseason_count\x7d` token is replaced
by the bare JSON number 2 and the text round-trips through parsing to the
payload mapping "count" to 2. -/
theorem generic_custom_template_round_trip :
    GenericProvider_build_payload
      [("webhook_payload_template", ConfigVal.vstr "\x7b\"count\":{season_count}\x7d"),
       ("lookback_days", ConfigVal.vint 7)]
      "2026-01-28T10:30:00"
      [⟨"Breaking Bad", 3, "Season 3", "2026-01-28T10:30:00", 13, "12345",
        some "http://cover"⟩,
       ⟨"The Office", 2, "Season 2", "2026-01-29T14:20:00", 22, "67890", none⟩] =
      .ok [("count", Json.num 2)] := rfl

/-- C8: with covers enabled, a non-empty seasons list in which no season has
a (truthy) cover URL yields a payload with exactly the keys message, number,
recipients and text_mode — no base64_attachments key at all. -/
theorem signal_payload_omits_attachments (cfg : ProviderConfig) (now_hm : String)
    (download : String → Option String) (seasons : List NewFinishedSeason)
    (number : ConfigVal) (recipients : List String)
    (hcov : cfgGet cfg "signal_include_covers" = some (.vbool true))
    (hne : seasons ≠ [])
    (hnoc : ∀ s ∈ seasons, s.cover_url = none ∨ s.cover_url = some "")
    (hrec : parse_recipients cfg = .ok recipients)
    (hnum : cfgGet cfg "signal_number" = some number) :
    SignalCliProvider_build_payload cfg now_hm download seasons =
      .ok [("message", .str (SignalCliProvider_format_message cfg now_hm seasons)),
           ("number", cfgToJson number),
           ("recipients", .arr (recipients.map Json.str)),
           ("text_mode", cfgToJson (cfgGetD cfg "signal_text_mode" (.vstr "styled")))] ∧
    (SignalCliProvider_build_payload cfg now_hm download seasons).map
        (fun payload => payload.map Prod.fst) =
      .ok ["message", "number", "recipients", "text_mode"] := by
  have hcovers : get_covers_as_base64 download seasons = [] := by
    unfold get_covers_as_base64
    refine List.filterMap_eq_nil_iff.mpr ?_
    intro s hs
    rcases hnoc s hs with h | h
    · simp [h]
    · simp [h]
  have hne2 : seasons.isEmpty = false := by
    simpa [List.isEmpty_iff] using hne
  have hmain : SignalCliProvider_build_payload cfg now_hm download seasons =
      .ok [("message", .str (SignalCliProvider_format_message cfg now_hm seasons)),
           ("number", cfgToJson number),
           ("recipients", .arr (recipients.map Json.str)),
           ("text_mode", cfgToJson (cfgGetD cfg "signal_text_mode" (.vstr "styled")))] := by
    unfold SignalCliProvider_build_payload
    simp [hrec, hnum, hcov, truthyCfg, hne2, hcovers]
  refine ⟨hmain, ?_⟩
  rw [hmain]
  rfl

/-- C8 witness: one season without a cover URL, covers enabled, at a
concrete config. -/
theorem signal_payload_omits_attachments_witness :
    (SignalCliProvider_build_payload
      [("signal_number", ConfigVal.vstr "+1"),
       ("signal_recipients", ConfigVal.vstr "+2"),
       ("signal_include_covers", ConfigVal.vbool true)] "T" (fun _ => none)
      [⟨"Show", 1, "Season 1", "5", 3, "rk", none⟩]).map
        (fun payload => payload.map Prod.fst) =
      .ok ["message", "number", "recipients", "text_mode"] :=
  (signal_payload_omits_attachments
    [("signal_number", ConfigVal.vstr "+1"),
     ("signal_recipients", ConfigVal.vstr "+2"),
     ("signal_include_covers", ConfigVal.vbool true)] "T" (fun _ => none)
    [⟨"Show", 1, "Season 1", "5", 3, "rk", none⟩] (.vstr "+1") ["+2"]
    rfl (by decide) (by decide) rfl rfl).2

/-- C9: the factory maps the lowercased mode "signal-cli" to the Signal
variant (failing with the invalid-configuration error when its
`validate_config` is false), "default" and "custom" to the Generic variant
(whose `validate_config` is always true), any other mode to a ValueError
naming the unrecognized mode, and the two error messages are always
distinct. -/
theorem get_webhook_provider_mode_mapping (config : Config) :
    (pyLower config.webhook_mode = "signal-cli" →
      get_webhook_provider config =
        (if SignalCliProvider_validate_config (get_provider_config config) then
          .ok .signalCli
         else
          .error ("Invalid configuration for " ++ pyLower config.webhook_mode ++
            " provider"))) ∧
    (pyLower config.webhook_mode = "default" ∨ pyLower config.webhook_mode = "custom" →
      get_webhook_provider config = .ok .generic) ∧
    (pyLower config.webhook_mode ≠ "signal-cli" →
      pyLower config.webhook_mode ≠ "default" →
      pyLower config.webhook_mode ≠ "custom" →
      get_webhook_provider config =
        .error ("Unsupported webhook_mode: " ++ config.webhook_mode)) ∧
    (∀ s t : String, "Unsupported webhook_mode: " ++ s ≠
      "Invalid configuration for " ++ t ++ " provider") := by
  refine ⟨?_, ?_, ?_, ?_⟩
  · intro h
    unfold get_webhook_provider
    simp [h]
  · intro h
    unfold get_webhook_provider
    rcases h with h | h
    · simp [h, WebhookProvider_validate_config]
    · simp [h, WebhookProvider_validate_config]
  · intro h1 h2 h3
    unfold get_webhook_provider
    simp [beq_false_of_ne h1, beq_false_of_ne h2, beq_false_of_ne h3]
  · intro s t h
    have h3 : 'U' :: ("nsupported webhook_mode: ".data ++ s.data) =
        'I' :: ("nvalid configuration for ".data ++ (t ++ " provider").data) :=
      congrArg String.data h
    exact absurd (List.cons.inj h3).1 (by decide)

/-- C9 witness: an unrecognized mode string produces the ValueError naming
it. -/
theorem get_webhook_provider_mode_mapping_witness :
    get_webhook_provider { webhook_mode := "Weird" } =
      .error "Unsupported webhook_mode: Weird" :=
  (get_webhook_provider_mode_mapping { webhook_mode := "Weird" }).2.2.1
    (by decide) (by decide) (by decide)

/-- C10 counterexample: a `Config` whose message template is a lone brace
makes `format_message` raise inside `build_payload` (modelled as
`Except.error`), so build_payload does not "always return the default
payload shape" for providers built from `get_provider_config`. -/
theorem provider_config_key_mismatch_counterexample :
    GenericProvider_build_payload
      (get_provider_config { webhook_message_template := "\x7b" }) "T" [] =
      .error "format_message raised" := rfl

/-- C10 (amended): `get_provider_config` stores the payload template under
"payload_template" while `build_payload` reads "webhook_payload_template",
so the lookup is always `none`, the custom-template branch is never taken,
and whenever message formatting succeeds the result is the default payload
shape. -/
theorem provider_config_key_mismatch (c : Config) (now_iso : String)
    (seasons : List NewFinishedSeason) :
    cfgGet (get_provider_config c) "webhook_payload_template" = none ∧
    cfgGet (get_provider_config c) "payload_template" =
      some (.vstr c.webhook_payload_template) ∧
    (∀ message,
      format_message (get_provider_config c) now_iso seasons = some message →
      GenericProvider_build_payload (get_provider_config c) now_iso seasons =
        .ok (defaultPayload (get_provider_config c) now_iso seasons message)) := by
  refine ⟨rfl, rfl, ?_⟩
  intro message hmsg
  have hfalse : truthyCfg
      (cfgGet (get_provider_config c) "webhook_payload_template") = false := rfl
  unfold GenericProvider_build_payload
  simp [hmsg, hfalse]

/-- C10 witness: a default `Config` yields the default payload shape. -/
theorem provider_config_key_mismatch_witness :
    GenericProvider_build_payload (get_provider_config {}) "T" [] =
      .ok (defaultPayload (get_provider_config {}) "T" []
        "📺 0 new season(s) completed this week!") :=
  (provider_config_key_mismatch {} "T" []).2.2
    "📺 0 new season(s) completed this week!" rfl
